import Mathlib

/-
Verification of the quota / tier / session-provisioning logic of a portfolio
web application.  The source under scrutiny is `src/app/actions/create-session.ts`
(server actions `createSession`, `getMessageUsage`, `getCurrentPlan`, helpers
`getUserPlan` and `getMessageLimit`) together with the job-fit `POST` route
handler found in the same file.  External effects (the auth provider lookup,
the request headers, environment configuration, and the two `fetch` calls) are
supplied through an explicit environment record, so that each server action
becomes a pure Lean function of that environment.  JavaScript exceptions are
embedded as an explicit `Exc` value threaded through `Except`.
-/

/-- Exceptions of the embedded JavaScript semantics.  `Exc.error msg` is a
value constructed by `new Error(msg)` inside the repository's own code;
`Exc.network code` stands for an opaque transport-level exception raised by
`fetch` itself (network failure) or by a response-body parse (`response.json()`
/ `JSON.parse`), carrying an opaque tag so distinct foreign exceptions stay
distinct. -/
inductive Exc where
  | error (msg : String)
  | network (code : Nat)
deriving DecidableEq, Repr

/-- Subscription tier, the closed enumeration behind the TypeScript union
type `"free" | "recruiter"`. -/
inductive Plan where
  | free
  | recruiter
deriving DecidableEq, Repr

/-- One entry of `user.organizationMemberships`.  The source reads
`membership.organization?.publicMetadata?.plan` through optional chaining, so
the whole chain collapses to an optional string. -/
structure OrgMembership where
  orgPlan : Option String
deriving DecidableEq, Repr

/-- The shape of the user record returned by the auth provider, restricted to
the fields `getUserPlan` reads: `organizationMemberships`,
`publicMetadata.subscriptionPlan` and `privateMetadata.subscriptionPlan`.
Absent or malformed fields are `none`. -/
structure ClerkUser where
  organizationMemberships : List OrgMembership
  publicSubscriptionPlan : Option String
  privateSubscriptionPlan : Option String
deriving DecidableEq, Repr

/-- `getUserPlan` (create-session.ts lines 11-39).  The argument is the
outcome of `clerkClient().users.getUser(userId)`: either a user record or a
thrown exception.  The `try/catch` in the source catches every exception and
returns `"free"`; the three metadata sources are consulted in order with
first match winning. -/
def getUserPlan (lookup : Except Exc ClerkUser) : Plan :=
  match lookup with
  | .error _ => .free
  | .ok user =>
    if user.organizationMemberships.any (fun m => m.orgPlan = some "recruiter") then
      .recruiter
    else if user.publicSubscriptionPlan = some "recruiter" then
      .recruiter
    else if user.privateSubscriptionPlan = some "recruiter" then
      .recruiter
    else
      .free

/-- `getMessageLimit` (create-session.ts lines 44-48): guests get 3,
authenticated recruiters 20, authenticated free users 5. -/
def getMessageLimit (isGuest : Bool) (plan : Plan) : Nat :=
  if isGuest then 3
  else if plan = Plan.recruiter then 20
  else 5

/-- Result record of the usage-tracker check, mirroring the
`{allowed, remaining, limit}` object returned by `hasRemainingMessages`. -/
structure UsageCheck where
  allowed : Bool
  remaining : Nat
  limit : Nat
deriving DecidableEq, Repr

/-- Modelled from the spec: the Usage Tracker module
(`@/lib/message-tracking`, functions `hasRemainingMessages` and
`incrementMessageCount`) is imported by create-session.ts but its source is
not part of the provided files.  Section 4.4 of the design document gives its
contract: `check(identity, isGuest, limit)` reads the current count for
(identity, today) and returns `allowed = count < limit`,
`remaining = max(0, limit - count)`, `limit = limit`, without mutating state.
Here `count` is the stored count for the caller's (identity, day) key. -/
def hasRemainingMessages (count : Nat) (limit : Nat) : UsageCheck :=
  { allowed := decide (count < limit), remaining := limit - count, limit := limit }

/-- Modelled from the spec: `commit` / `incrementMessageCount` increments the
count for the caller's (identity, today) key by one (design document
section 4.4). -/
def incrementMessageCount (count : Nat) : Nat := count + 1

/-- Identity resolution inlined in `createSession` (lines 51-66): an
authenticated caller is tracked by the user id with `isGuest = false`; an
anonymous caller is tracked by the `x-forwarded-for` header value, defaulting
to `"127.0.0.1"` when the header is absent, with `isGuest = true`. -/
def resolveIdentifier (userId : Option String) (xForwardedFor : Option String) :
    String × Bool :=
  match userId with
  | some uid => (uid, false)
  | none => (xForwardedFor.getD "127.0.0.1", true)

/-- The response object of the ChatKit `fetch` call, restricted to what the
source reads: `ok`, `text()` (used when not ok) and the outcome of
`response.json()` followed by the `data.client_secret` read (which can throw
if the body is not JSON). -/
structure FetchResponse where
  ok : Bool
  body : String
  clientSecret : Except Exc String
deriving Repr

/-- Everything `createSession` observes from the outside world: the auth
session, the auth-provider user lookup, the request headers, the per-key
usage-count store, the two configuration values and the result of the ChatKit
`fetch` call (`Except.error` when `fetch` itself throws). -/
structure Env where
  userId : Option String
  clerkLookup : Except Exc ClerkUser
  xForwardedFor : Option String
  store : String → Nat
  apiKey : Option String
  workflowId : Option String
  fetchResult : Except Exc FetchResponse
  guestSuffix : String

/-- The plan computed at line 55 of the source:
`userId ? await getUserPlan(userId) : "free"`. -/
def sessionPlan (env : Env) : Plan :=
  match env.userId with
  | some _ => getUserPlan env.clerkLookup
  | none => Plan.free

/-- The daily limit computed at line 56 of the source. -/
def sessionLimit (env : Env) : Nat :=
  getMessageLimit (resolveIdentifier env.userId env.xForwardedFor).2 (sessionPlan env)

/-- The tracking identifier computed at lines 59-66 of the source. -/
def sessionIdentifier (env : Env) : String :=
  (resolveIdentifier env.userId env.xForwardedFor).1

/-- Whether the quota check of lines 69-73 comes back allowed. -/
def sessionAllowed (env : Env) : Bool :=
  (hasRemainingMessages (env.store (sessionIdentifier env)) (sessionLimit env)).allowed

/-- The quota-exceeded error message built inline at lines 76-80 of the
source.  `limit` is the `limit` field returned by `hasRemainingMessages`;
the two inner `getMessageLimit` calls appear verbatim in the template
literals of the source. -/
def quotaExceededMessage (isGuest : Bool) (plan : Plan) (limit : Nat) : String :=
  if isGuest then
    "Has alcanzado el límite de " ++ toString limit ++
      " mensajes diarios. Inicia sesión para obtener " ++
      toString (getMessageLimit false Plan.free) ++ " mensajes al día."
  else if plan = Plan.recruiter then
    "Has alcanzado el límite de " ++ toString limit ++
      " mensajes diarios. Vuelve mañana para continuar."
  else
    "Has alcanzado el límite de " ++ toString limit ++
      " mensajes diarios. Actualiza a Recruiter para obtener " ++
      toString (getMessageLimit false Plan.recruiter) ++ " mensajes al día."

/-- Lines 88-121 of the source: the configuration checks, the ChatKit
`fetch`, and on confirmed success the `incrementMessageCount` commit for the
caller's key followed by the `data.client_secret` return.  Every failure
path leaves the store untouched. -/
def provisionAndCommit (env : Env) (identifier : String) :
    Except Exc String × (String → Nat) :=
  match env.apiKey with
  | none => (.error (.error "OPENAI_API_KEY not configured"), env.store)
  | some _ =>
    match env.workflowId with
    | none => (.error (.error "WORKFLOW_ID not configured"), env.store)
    | some _ =>
      match env.fetchResult with
      | .error e => (.error e, env.store)
      | .ok resp =>
        if resp.ok = false then
          (.error (.error ("Failed to create session: " ++ resp.body)), env.store)
        else
          match resp.clientSecret with
          | .error e => (.error e, env.store)
          | .ok secret =>
            (.ok secret,
             fun k => if k = identifier then incrementMessageCount (env.store k)
                      else env.store k)

/-- `createSession` (create-session.ts lines 50-122) as a pure function of
its environment.  The returned pair is the outcome (the `client_secret`
string, or the thrown exception) together with the usage-count store after
the call.  Lines 51-73 resolve identity, plan, limit and the quota check;
line 75 branches on `!allowed`, throwing the inline message of lines 76-80;
the rest is `provisionAndCommit`. -/
def createSession (env : Env) : Except Exc String × (String → Nat) :=
  if sessionAllowed env = false then
    (.error (.error (quotaExceededMessage
        (resolveIdentifier env.userId env.xForwardedFor).2
        (sessionPlan env) (sessionLimit env))),
     env.store)
  else
    provisionAndCommit env (sessionIdentifier env)

/-- The response object of the chat-completions `fetch` call in the job-fit
route, restricted to what the handler reads: `ok`, `status`, `text()` (used
when not ok) and the outcome of `response.json()` followed by
`data.choices[0].message.content` (an exception when the body is not JSON or
the path is absent). -/
structure ChatResponse where
  ok : Bool
  status : Nat
  body : String
  content : Except Exc String
deriving Repr

/-- A response produced by the job-fit route handler: either the
`new Response(JSON.stringify(\x7berror: msg\x7d), \x7bstatus\x7d)` form or
the `Response.json(object)` form carrying the parsed assessment verbatim. -/
inductive RouteBody where
  | errJson (msg : String)
  | payload (v : String)
deriving DecidableEq, Repr

/-- An HTTP response of the job-fit route: status code plus body. -/
structure RouteResponse where
  status : Nat
  body : RouteBody
deriving DecidableEq, Repr

/-- Everything the job-fit `POST` handler observes from the outside world:
the outcome of `req.json()` (the `jobDescription` string, or a thrown parse
exception), the API-key configuration, the outcome of the upstream `fetch`,
and the behaviour of `JSON.parse` on the returned content (the parsed object
is kept opaque as its serialisation). -/
structure JobFitEnv where
  bodyJson : Except Exc String
  apiKey : Option String
  fetchResult : Except Exc ChatResponse
  parseJson : String → Except Exc String

/-- The body of the `try` block of the job-fit `POST` handler (lines 203-268
of the concatenated source): `Except.error` is an exception about to be
caught by the surrounding `catch`. -/
def jobFitTry (env : JobFitEnv) : Except Exc RouteResponse :=
  match env.bodyJson with
  | .error e => .error e
  | .ok _jobDescription =>
    match env.apiKey with
    | none => .ok ⟨500, .errJson "Server configuration error"⟩
    | some _ =>
      match env.fetchResult with
      | .error e => .error e
      | .ok resp =>
        if resp.ok = false then
          .error (.error ("OpenAI API failed: " ++ toString resp.status))
        else
          match resp.content with
          | .error e => .error e
          | .ok content =>
            match env.parseJson content with
            | .error e => .error e
            | .ok object => .ok ⟨200, .payload object⟩

/-- The job-fit `POST` handler (lines 202-273 of the concatenated source):
the whole body sits in a `try`; any exception is caught and turned into the
generic 500 `Failed to analyze job fit` response. -/
def jobFitPOST (env : JobFitEnv) : RouteResponse :=
  match jobFitTry env with
  | .ok r => r
  | .error _ => ⟨500, .errJson "Failed to analyze job fit"⟩

/-
Interleaving model for the quota check/commit pair.  A single `createSession`
request for an already-resolved identity passes through these await
boundaries, in order: the `hasRemainingMessages` read (lines 69-73), the
external ChatKit `fetch` (line 98), and the `incrementMessageCount` write
(line 119).  Two concurrent requests from the same identity interleave at
those await points while sharing the usage count of that identity's key.
-/

/-- The phase a single in-flight request is in, between await points:
not yet checked; past a check that came back allowed; rejected by the check;
past a successful external `fetch`; or finished with the increment
committed. -/
inductive Phase where
  | start
  | passed
  | rejected
  | provisioned
  | committed
deriving DecidableEq, Repr

/-- One step of a single request against the shared count for its identity,
with the external `fetch` assumed to succeed: the check reads the count via
`hasRemainingMessages` without writing; the commit writes via
`incrementMessageCount`.  Finished requests do not move. -/
def stepThread (limit : Nat) (count : Nat) : Phase → Phase × Nat
  | .start =>
      if (hasRemainingMessages count limit).allowed then (.passed, count)
      else (.rejected, count)
  | .passed => (.provisioned, count)
  | .provisioned => (.committed, incrementMessageCount count)
  | .rejected => (.rejected, count)
  | .committed => (.committed, count)

/-- Shared state of two concurrent requests from the same identity: the
stored count for the (identity, day) key and each request's phase. -/
structure TwoState where
  count : Nat
  p1 : Phase
  p2 : Phase
deriving DecidableEq, Repr

/-- One scheduler step: `false` advances the first request, `true` the
second. -/
def stepTwo (limit : Nat) (s : TwoState) (which : Bool) : TwoState :=
  if which then
    let pc := stepThread limit s.count s.p2
    ⟨pc.2, s.p1, pc.1⟩
  else
    let pc := stepThread limit s.count s.p1
    ⟨pc.2, pc.1, s.p2⟩

/-- Run a finite schedule of interleaved steps. -/
def runTwo (limit : Nat) (sched : List Bool) (s : TwoState) : TwoState :=
  match sched with
  | [] => s
  | w :: rest => runTwo limit rest (stepTwo limit s w)

/-- Sequential (non-interleaved) provisioning attempts for one identity with
the external call always succeeding: each attempt runs the
`hasRemainingMessages` check against the current count and, when allowed,
commits `incrementMessageCount` before the next attempt starts.  Returns the
number of committed attempts and the number of quota rejections. -/
def serialRun (limit : Nat) : Nat → Nat → Nat × Nat
  | 0, _ => (0, 0)
  | n + 1, count =>
    if (hasRemainingMessages count limit).allowed then
      let r := serialRun limit n (incrementMessageCount count)
      (r.1 + 1, r.2)
    else
      let r := serialRun limit n count
      (r.1, r.2 + 1)

/-- A concrete guest environment whose ChatKit `fetch` throws a network
exception. -/
def envNetworkDown : Env :=
  ⟨none, Except.error (Exc.network 1), none, fun _ => 0, some "sk", some "wf",
   Except.error (Exc.network 7), "g1"⟩

/-- A concrete guest environment whose ChatKit `fetch` throws, used to check
that the store stays untouched on upstream failure. -/
def envFetchDown : Env :=
  ⟨none, Except.error (Exc.network 1), some "203.0.113.9", fun _ => 0,
   some "sk_test", some "wf_1", Except.error (Exc.network 2), "g2"⟩

/-- A concrete authenticated environment with a valid API key but no
workflow identifier configured. -/
def envNoWorkflow : Env :=
  ⟨some "user_1", Except.ok ⟨[], none, none⟩, none, fun _ => 0, some "sk",
   none, Except.error (Exc.network 0), "g3"⟩

/-- A concrete guest environment whose usage count already equals the guest
limit of 3. -/
def envQuotaGuest : Env :=
  ⟨none, Except.error (Exc.network 0), none, fun _ => 3, some "sk",
   some "wf", Except.error (Exc.network 0), "g4"⟩

/-- A concrete authenticated free-tier environment with an exhausted count
and, deliberately, no API key and no workflow identifier configured. -/
def envQuotaNoConfig : Env :=
  ⟨some "user_9", Except.ok ⟨[], none, none⟩, none, fun _ => 99, none, none,
   Except.error (Exc.network 0), "g5"⟩

/-- A user record carrying an organization-level recruiter flag together
with conflicting individual metadata marking the plan free. -/
def userOrgRecruiter : ClerkUser :=
  ⟨[⟨some "recruiter"⟩], some "free", some "free"⟩

/-- A concrete job-fit environment whose upstream `fetch` throws a network
exception. -/
def envFitDown : JobFitEnv :=
  ⟨Except.ok "Senior automation engineer role", some "sk",
   Except.error (Exc.network 3), fun s => Except.ok s⟩

/-- Every branch of the quota-exceeded message starts with the same Spanish
prefix, so its first character is `H`. -/
lemma quotaExceededMessage_startsWith (g : Bool) (p : Plan) (L : Nat) :
    (quotaExceededMessage g p L).data.head? = some 'H' := by
  cases g <;> cases p <;> rfl

/-- Case analysis of the store returned by `provisionAndCommit`: either some
failure branch was taken and the store is untouched, or the configuration
was present, the `fetch` succeeded, the body parsed, and the store was
bumped at the caller's key. -/
lemma provisionAndCommit_store_cases (env : Env) (who : String) :
    (provisionAndCommit env who).2 = env.store ∨
    (∃ a w r s, env.apiKey = some a ∧ env.workflowId = some w ∧
      env.fetchResult = Except.ok r ∧ r.ok = true ∧
      r.clientSecret = Except.ok s ∧
      (provisionAndCommit env who).2 =
        fun k => if k = who then incrementMessageCount (env.store k)
                 else env.store k) := by
  rcases hA : env.apiKey with _ | a
  · exact Or.inl (by simp [provisionAndCommit, hA])
  rcases hW : env.workflowId with _ | w
  · exact Or.inl (by simp [provisionAndCommit, hA, hW])
  rcases hF : env.fetchResult with e | r
  · exact Or.inl (by simp [provisionAndCommit, hA, hW, hF])
  cases hO : r.ok
  · exact Or.inl (by simp [provisionAndCommit, hA, hW, hF, hO])
  rcases hS : r.clientSecret with e | s
  · exact Or.inl (by simp [provisionAndCommit, hA, hW, hF, hO, hS])
  · exact Or.inr ⟨a, w, r, s, rfl, rfl, rfl, hO, hS,
      by simp [provisionAndCommit, hA, hW, hF, hO, hS]⟩

/-- C1: for every (isGuest, tier) pair the quota policy `getMessageLimit` is
a pure total function returning exactly 3 for any guest, 5 for an
authenticated free user and 20 for an authenticated recruiter. -/
theorem getMessageLimit_table :
    (∀ p : Plan, getMessageLimit true p = 3) ∧
    getMessageLimit false Plan.free = 5 ∧
    getMessageLimit false Plan.recruiter = 20 :=
  ⟨fun p => by cases p <;> rfl, rfl, rfl⟩

/-- C3: plan resolution follows first-match precedence: an organization
membership flagged recruiter wins over any individual metadata; otherwise
the public profile attribute decides; otherwise the private/billing
attribute; otherwise the result is free. -/
theorem getUserPlan_precedence (u : ClerkUser) :
    (u.organizationMemberships.any (fun m => m.orgPlan = some "recruiter") = true →
        getUserPlan (.ok u) = Plan.recruiter) ∧
    (u.organizationMemberships.any (fun m => m.orgPlan = some "recruiter") = false →
        u.publicSubscriptionPlan = some "recruiter" →
        getUserPlan (.ok u) = Plan.recruiter) ∧
    (u.organizationMemberships.any (fun m => m.orgPlan = some "recruiter") = false →
        u.publicSubscriptionPlan ≠ some "recruiter" →
        u.privateSubscriptionPlan = some "recruiter" →
        getUserPlan (.ok u) = Plan.recruiter) ∧
    (u.organizationMemberships.any (fun m => m.orgPlan = some "recruiter") = false →
        u.publicSubscriptionPlan ≠ some "recruiter" →
        u.privateSubscriptionPlan ≠ some "recruiter" →
        getUserPlan (.ok u) = Plan.free) := by
  refine ⟨fun h1 => ?_, fun h1 h2 => ?_, fun h1 h2 h3 => ?_, fun h1 h2 h3 => ?_⟩
  · simp [getUserPlan, h1]
  · simp [getUserPlan, h1, h2]
  · simp [getUserPlan, h1, h2, h3]
  · simp [getUserPlan, h1, h2, h3]

/-- C3 witness: a user whose organization carries the recruiter flag while
both individual metadata attributes say free resolves to recruiter. -/
theorem getUserPlan_precedence_check :
    getUserPlan (.ok userOrgRecruiter) = Plan.recruiter :=
  (getUserPlan_precedence userOrgRecruiter).1 (by decide)

/-- C4: plan resolution fails closed: whenever the provider lookup throws,
`getUserPlan` returns free; being a total Lean function it propagates no
exception to its caller. -/
theorem getUserPlan_failsClosed (e : Exc) : getUserPlan (.error e) = Plan.free := rfl

/-- C8: identity resolution is total: an authenticated user id is used as
the identifier with isGuest false; otherwise the x-forwarded-for header
value is used, defaulting to the loopback placeholder when absent, with
isGuest true. -/
theorem resolveIdentifier_total :
    (∀ uid h, resolveIdentifier (some uid) h = (uid, false)) ∧
    (∀ v, resolveIdentifier none (some v) = (v, true)) ∧
    resolveIdentifier none none = ("127.0.0.1", true) :=
  ⟨fun _ _ => rfl, fun _ => rfl, rfl⟩

/-- C2: the usage increment is committed only after a confirmed success of
the external session-creation call: whenever the configuration is missing,
the `fetch` itself throws, or the response is non-success, the store is left
unchanged; conversely any change to the store implies the `fetch` returned a
success response whose body parsed. -/
theorem incrementOnlyAfterSuccess (env : Env) :
    ((env.apiKey = none ∨ env.workflowId = none ∨
        (∃ e, env.fetchResult = Except.error e) ∨
        (∃ r, env.fetchResult = Except.ok r ∧ r.ok = false)) →
      (createSession env).2 = env.store) ∧
    ((createSession env).2 ≠ env.store →
      ∃ r, env.fetchResult = Except.ok r ∧ r.ok = true ∧
        ∃ s, r.clientSecret = Except.ok s) := by
  constructor
  · intro h
    unfold createSession
    by_cases hq : sessionAllowed env = false
    · rw [if_pos hq]
    · rw [if_neg hq]
      rcases provisionAndCommit_store_cases env (sessionIdentifier env) with
        hc | ⟨a, w, r, s, hA, hW, hF, hO, hS, _⟩
      · exact hc
      · exfalso
        rcases h with h | h | ⟨e, he⟩ | ⟨r', hr', hok⟩
        · rw [h] at hA; cases hA
        · rw [h] at hW; cases hW
        · rw [he] at hF; cases hF
        · rw [hr'] at hF
          injection hF with hrr
          rw [← hrr, hok] at hO
          cases hO
  · intro hne
    unfold createSession at hne
    by_cases hq : sessionAllowed env = false
    · rw [if_pos hq] at hne; exact absurd rfl hne
    · rw [if_neg hq] at hne
      rcases provisionAndCommit_store_cases env (sessionIdentifier env) with
        hc | ⟨a, w, r, s, hA, hW, hF, hO, hS, _⟩
      · exact absurd hc hne
      · exact ⟨r, hF, hO, s, hS⟩

/-- C2 witness: in a concrete guest environment whose `fetch` throws, the
usage-count store after `createSession` is the store before it. -/
theorem incrementOnlyAfterSuccess_check :
    (createSession envFetchDown).2 = envFetchDown.store :=
  (incrementOnlyAfterSuccess envFetchDown).1
    (Or.inr (Or.inr (Or.inl ⟨Exc.network 2, rfl⟩)))

/-- C5: when the quota check comes back not-allowed, `createSession` fails
with the quota-exceeded message selected by (isGuest, tier): a sign-in
prompt for a guest, a come-back-tomorrow message for a recruiter and an
upgrade prompt for an authenticated free user, each carrying the applicable
limit. -/
theorem quotaExceededMessage_byTier (env : Env)
    (h : sessionAllowed env = false) :
    (createSession env).1 = Except.error (Exc.error (quotaExceededMessage
        (resolveIdentifier env.userId env.xForwardedFor).2
        (sessionPlan env) (sessionLimit env))) ∧
    (∀ p L, quotaExceededMessage true p L =
      "Has alcanzado el límite de " ++ toString L ++
        " mensajes diarios. Inicia sesión para obtener " ++ "5" ++
        " mensajes al día.") ∧
    (∀ L, quotaExceededMessage false Plan.recruiter L =
      "Has alcanzado el límite de " ++ toString L ++
        " mensajes diarios. Vuelve mañana para continuar.") ∧
    (∀ L, quotaExceededMessage false Plan.free L =
      "Has alcanzado el límite de " ++ toString L ++
        " mensajes diarios. Actualiza a Recruiter para obtener " ++ "20" ++
        " mensajes al día.") := by
  refine ⟨?_, fun p L => rfl, fun L => rfl, fun L => rfl⟩
  unfold createSession
  rw [if_pos h]

/-- C5 witness: for a guest whose count already equals the guest limit, the
call fails with the guest quota message. -/
theorem quotaExceededMessage_byTier_check :
    (createSession envQuotaGuest).1 = Except.error (Exc.error (quotaExceededMessage
        (resolveIdentifier envQuotaGuest.userId envQuotaGuest.xForwardedFor).2
        (sessionPlan envQuotaGuest) (sessionLimit envQuotaGuest))) :=
  (quotaExceededMessage_byTier envQuotaGuest rfl).1

/-- C10: the quota check precedes the configuration checks: a caller whose
check comes back not-allowed gets the quota-exceeded message even when the
API key or the workflow identifier is missing, and either configuration
error can only be observed after the quota check passed. -/
theorem quotaCheckPrecedesConfig (env : Env) :
    (sessionAllowed env = false →
      (createSession env).1 = Except.error (Exc.error (quotaExceededMessage
        (resolveIdentifier env.userId env.xForwardedFor).2
        (sessionPlan env) (sessionLimit env)))) ∧
    ((createSession env).1 = Except.error (Exc.error "OPENAI_API_KEY not configured") ∨
      (createSession env).1 = Except.error (Exc.error "WORKFLOW_ID not configured") →
      sessionAllowed env = true) := by
  constructor
  · intro h
    unfold createSession
    rw [if_pos h]
  · intro hc
    by_cases hq : sessionAllowed env = false
    · exfalso
      have hres : (createSession env).1 = Except.error (Exc.error (quotaExceededMessage
          (resolveIdentifier env.userId env.xForwardedFor).2
          (sessionPlan env) (sessionLimit env))) := by
        unfold createSession; rw [if_pos hq]
      rcases hc with hc | hc
      · rw [hres] at hc
        simp only [Except.error.injEq, Exc.error.injEq] at hc
        have hh : (quotaExceededMessage
            (resolveIdentifier env.userId env.xForwardedFor).2
            (sessionPlan env) (sessionLimit env)).data.head? =
            ("OPENAI_API_KEY not configured" : String).data.head? := by rw [hc]
        rw [quotaExceededMessage_startsWith] at hh
        exact absurd hh (by decide)
      · rw [hres] at hc
        simp only [Except.error.injEq, Exc.error.injEq] at hc
        have hh : (quotaExceededMessage
            (resolveIdentifier env.userId env.xForwardedFor).2
            (sessionPlan env) (sessionLimit env)).data.head? =
            ("WORKFLOW_ID not configured" : String).data.head? := by rw [hc]
        rw [quotaExceededMessage_startsWith] at hh
        exact absurd hh (by decide)
    · cases hb : sessionAllowed env
      · exact absurd hb hq
      · rfl

/-- C10 witness: an authenticated free caller with an exhausted count and no
API key and no workflow identifier configured still gets the quota message. -/
theorem quotaCheckPrecedesConfig_check :
    (createSession envQuotaNoConfig).1 = Except.error (Exc.error (quotaExceededMessage
        (resolveIdentifier envQuotaNoConfig.userId envQuotaNoConfig.xForwardedFor).2
        (sessionPlan envQuotaNoConfig) (sessionLimit envQuotaNoConfig))) :=
  (quotaCheckPrecedesConfig envQuotaNoConfig).1 rfl

/-- C7 counterexample: `createSession` does not wrap a network-level `fetch`
exception into any typed error of its own: in a concrete guest environment
whose `fetch` throws, the exception reaching the caller is the raw transport
exception, which is not of the `new Error(message)` form the source
constructs for quota, configuration and upstream failures. -/
theorem createSessionLeaksNetworkException :
    (createSession envNetworkDown).1 = Except.error (Exc.network 7) ∧
    ∀ msg, (Except.error (Exc.network 7) : Except Exc String) ≠
      Except.error (Exc.error msg) := by
  refine ⟨rfl, fun msg h => ?_⟩
  simp only [Except.error.injEq] at h
  cases h

/-- C7 amended: every failure `createSession` raises itself is a generic
`Error` value distinguished only by its message string (the quota message,
the two configuration messages, or the upstream-failure message), and any
other failure is a raw exception propagated unchanged from the `fetch` call
or from the response-body parse. -/
theorem createSessionErrorForms (env : Env) (e : Exc)
    (h : (createSession env).1 = Except.error e) :
    (∃ msg, e = Exc.error msg ∧
      (msg = quotaExceededMessage (resolveIdentifier env.userId env.xForwardedFor).2
          (sessionPlan env) (sessionLimit env) ∨
       msg = "OPENAI_API_KEY not configured" ∨
       msg = "WORKFLOW_ID not configured" ∨
       ∃ body, msg = "Failed to create session: " ++ body)) ∨
    env.fetchResult = Except.error e ∨
    (∃ r, env.fetchResult = Except.ok r ∧ r.clientSecret = Except.error e) := by
  unfold createSession at h
  by_cases hq : sessionAllowed env = false
  · rw [if_pos hq] at h
    simp only [Except.error.injEq] at h
    exact Or.inl ⟨_, h.symm, Or.inl rfl⟩
  · rw [if_neg hq] at h
    rcases hA : env.apiKey with _ | a
    · simp only [provisionAndCommit, hA, Except.error.injEq] at h
      exact Or.inl ⟨_, h.symm, Or.inr (Or.inl rfl)⟩
    rcases hW : env.workflowId with _ | w
    · simp only [provisionAndCommit, hA, hW, Except.error.injEq] at h
      exact Or.inl ⟨_, h.symm, Or.inr (Or.inr (Or.inl rfl))⟩
    rcases hF : env.fetchResult with e' | r
    · simp only [provisionAndCommit, hA, hW, hF, Except.error.injEq] at h
      exact Or.inr (Or.inl (by rw [h]))
    cases hO : r.ok
    · simp [provisionAndCommit, hA, hW, hF, hO] at h
      exact Or.inl ⟨_, h.symm, Or.inr (Or.inr (Or.inr ⟨r.body, rfl⟩))⟩
    · rcases hS : r.clientSecret with e' | s
      · simp [provisionAndCommit, hA, hW, hF, hO, hS] at h
        exact Or.inr (Or.inr ⟨r, rfl, by rw [hS, h]⟩)
      · simp [provisionAndCommit, hA, hW, hF, hO, hS] at h

/-- C7 amended witness: in the concrete environment lacking a workflow
identifier, the raised error is the generic one carrying the
workflow-configuration message. -/
theorem createSessionErrorForms_check :
    (∃ msg, Exc.error "WORKFLOW_ID not configured" = Exc.error msg ∧
      (msg = quotaExceededMessage
          (resolveIdentifier envNoWorkflow.userId envNoWorkflow.xForwardedFor).2
          (sessionPlan envNoWorkflow) (sessionLimit envNoWorkflow) ∨
       msg = "OPENAI_API_KEY not configured" ∨
       msg = "WORKFLOW_ID not configured" ∨
       ∃ body, msg = "Failed to create session: " ++ body)) ∨
    envNoWorkflow.fetchResult = Except.error (Exc.error "WORKFLOW_ID not configured") ∨
    (∃ r, envNoWorkflow.fetchResult = Except.ok r ∧
      r.clientSecret = Except.error (Exc.error "WORKFLOW_ID not configured")) :=
  createSessionErrorForms envNoWorkflow (Exc.error "WORKFLOW_ID not configured") rfl

/-- Once the stored count has reached the limit, every further sequential
attempt is rejected. -/
lemma serialRun_rejectAll (limit : Nat) :
    ∀ k count, limit ≤ count → serialRun limit k count = (0, k) := by
  intro k
  induction k with
  | zero => intro count _; rfl
  | succ n ih =>
    intro count h
    have hnot : ¬ count < limit := Nat.not_lt.mpr h
    simp only [serialRun, hasRemainingMessages, hnot, decide_False, if_false,
      Bool.false_eq_true]
    rw [ih count h]

/-- Sequential attempts starting `n` below the limit: the first `n` commit
and the remaining `k` are rejected. -/
lemma serialRun_split :
    ∀ n k count limit, count + n = limit →
      serialRun limit (n + k) count = (n, k) := by
  intro n
  induction n with
  | zero =>
    intro k count limit h
    have hle : limit ≤ count := by omega
    simpa using serialRun_rejectAll limit k count hle
  | succ m ih =>
    intro k count limit h
    have hlt : count < limit := by omega
    have harr : m + 1 + k = (m + k) + 1 := by omega
    rw [harr]
    simp only [serialRun, hasRemainingMessages, hlt, decide_True, if_true]
    rw [ih k (incrementMessageCount count) limit (by simp [incrementMessageCount]; omega)]

/-- C6 counterexample: the check-then-commit pair is not atomic.  With the
guest limit 3 and a stored count of 2 (one increment of quota remaining),
two concurrent requests interleaved at their await points both pass the
`hasRemainingMessages` check, both provision, and both commit, leaving the
count at 4 — two increments where only one slot remained. -/
theorem concurrentCheckCommitNotAtomic :
    (hasRemainingMessages 2 3).allowed = true ∧
    (hasRemainingMessages 3 3).allowed = false ∧
    runTwo 3 [false, true, false, true, false, true] ⟨2, .start, .start⟩ =
      ⟨4, Phase.committed, Phase.committed⟩ := by
  decide

/-- C6 amended: because the check and the commit are separate store
operations with the external call between them, exact admission holds only
for non-overlapping executions: `limit + k` sequential provisioning attempts
for one identity starting from a fresh count yield exactly `limit` commits
and `k` quota rejections. -/
theorem serialAdmissionExact (limit k : Nat) :
    serialRun limit (limit + k) 0 = (limit, k) :=
  serialRun_split limit k 0 limit (by omega)

/-- C9: whenever the upstream call of the job-fit route fails (the `fetch`
throws or returns non-success) or the response body does not parse as the
expected structure (missing content path or `JSON.parse` failure), the
handler returns the single generic 500 analysis-failed response, with no
partial result. -/
theorem jobFitGenericFailure (env : JobFitEnv) (hk : env.apiKey ≠ none)
    (h : (∃ e, env.fetchResult = Except.error e) ∨
         (∃ r, env.fetchResult = Except.ok r ∧ r.ok = false) ∨
         (∃ r e, env.fetchResult = Except.ok r ∧ r.content = Except.error e) ∨
         (∃ r c e, env.fetchResult = Except.ok r ∧ r.content = Except.ok c ∧
           env.parseJson c = Except.error e)) :
    jobFitPOST env = ⟨500, RouteBody.errJson "Failed to analyze job fit"⟩ := by
  rcases hB : env.bodyJson with e0 | jd
  · simp [jobFitPOST, jobFitTry, hB]
  rcases hK : env.apiKey with _ | key
  · exact absurd hK hk
  rcases h with ⟨e, hF⟩ | ⟨r, hF, hO⟩ | ⟨r, e, hF, hC⟩ | ⟨r, c, e, hF, hC, hP⟩
  · simp [jobFitPOST, jobFitTry, hB, hK, hF]
  · simp [jobFitPOST, jobFitTry, hB, hK, hF, hO]
  · cases hO : r.ok
    · simp [jobFitPOST, jobFitTry, hB, hK, hF, hO]
    · simp [jobFitPOST, jobFitTry, hB, hK, hF, hO, hC]
  · cases hO : r.ok
    · simp [jobFitPOST, jobFitTry, hB, hK, hF, hO]
    · simp [jobFitPOST, jobFitTry, hB, hK, hF, hO, hC, hP]

/-- C9 witness: with the upstream `fetch` throwing a network exception, the
job-fit route returns the generic analysis-failed response. -/
theorem jobFitGenericFailure_check :
    jobFitPOST envFitDown = ⟨500, RouteBody.errJson "Failed to analyze job fit"⟩ :=
  jobFitGenericFailure envFitDown (by decide)
    (Or.inl ⟨Exc.network 3, rfl⟩)
